import Mathlib

/-!
Verification of the report-generation core of `telemeter-reporter`
(`telemeter_reporter/reporter.py` and `telemeter_reporter/uhc.py`).

Shallow embedding conventions:
* `datetime` values are integers (microseconds since the epoch); `timedelta(days=d)`
  is `d * usPerDay`; `timedelta.days` is floor division (`Int.fdiv`) by `usPerDay`.
* Python numbers (floats) are embedded as `Rat`.
* Fallible Python code (uncaught exceptions) is embedded as `Except String _`.
* The metrics query client (`prometheus_api_client` plus the result-extraction
  expression `float(query_res[0]["value"][1])`, all inside the `try`) is an
  external collaborator, embedded as an oracle `String → Option Int → Except String Rat`.
* The `tabulate` library is an external collaborator, embedded as an opaque
  function argument `List (List String) → List String → String → String`.
-/

namespace TelemeterReporter

/-- Microseconds per day: `timedelta(days=1)` at `datetime` resolution. -/
def usPerDay : Int := 86400000000

/-- Embedding of Python dict values as they occur in the config: strings,
ints and floats.  `PyVal.str` is Python `str()` as used by `Template.substitute`. -/
inductive PyVal where
  | s (v : String)
  | i (v : Int)
  | r (v : Rat)
deriving DecidableEq

/-- Python `str()` of a config value.  For floats Python prints the shortest
round-trip decimal; this is approximated by `Rat` printing here (no theorem
in this file depends on the float case). -/
def PyVal.str : PyVal → String
  | .s v => v
  | .i v => toString v
  | .r v => toString v

/-- Python `int()` applied to a config value; failure is the uncaught
`ValueError`/`TypeError`.  `int()` truncates floats toward zero. -/
def pyToInt : PyVal → Except String Int
  | .i n => .ok n
  | .s s => match s.toInt? with
      | some n => .ok n
      | none => .error "ValueError"
  | .r q => .ok (q.num.tdiv (q.den : Int))

/-- `uhc.Cluster`: NamedTuple (id, name, external_id, creation_timestamp). -/
structure Cluster where
  id : String
  name : String
  external_id : String
  creation_timestamp : Int
deriving DecidableEq

/-- One part of a `string.Template`: literal text or a `$`-placeholder. -/
inductive TmplPart where
  | lit (s : String)
  | var (n : String)
deriving DecidableEq

/-- A configured rule.  In the YAML it is a dict with at least `name`,
`query` and `goal`; `extra` holds any further per-rule variables. -/
structure Rule where
  name : String
  query : List TmplPart
  goal : Rat
  extra : List (String × PyVal)
deriving DecidableEq

/-- `⟨k: v for k, v in rule.items() if k != "query"⟩`: every rule item except
the query template itself, `name` and `goal` included. -/
def ruleItems (r : Rule) : List (String × PyVal) :=
  ("name", PyVal.s r.name) :: ("goal", PyVal.r r.goal) :: r.extra

/-- The part of `self.config` that `generate_report` reads.  `global_vars = none`
models a config file without a `global_vars` key (the source catches the
resulting `KeyError` in one place and not in another). -/
structure Config where
  global_vars : Option (List (String × PyVal))
  rules : List Rule

/-- A Python dict built from a list of key/value pairs, later entries
overriding earlier ones (as in a dict literal with `**` unpacking).  Only
lookups are needed, so the dict is embedded as a lookup function. -/
def listToDict : List (String × PyVal) → String → Option PyVal
  | [], _ => none
  | kv :: t, k => (listToDict t k).orElse (fun _ => if kv.1 = k then some kv.2 else none)

/-- Python dict update `d[k] = v` on a lookup-function dict. -/
def dset (d : String → Option PyVal) (k : String) (v : PyVal) : String → Option PyVal :=
  fun k' => if k' = k then some v else d k'

/-- `string.Template(...).substitute(**params)`: every placeholder must be
bound; an unbound placeholder raises `KeyError` (embedded as `.error` with the
placeholder name, the first unbound one from the left). -/
def substitute : List TmplPart → (String → Option PyVal) → Except String String
  | [], _ => .ok ""
  | .lit s :: t, p =>
      match substitute t p with
      | .ok rest => .ok (s ++ rest)
      | .error e => .error e
  | .var n :: t, p =>
      match p n with
      | some v =>
          match substitute t p with
          | .ok rest => .ok (v.str ++ rest)
          | .error e => .error e
      | none => .error n

/-- `string.Template(...).safe_substitute(**params)`: unbound placeholders are
left verbatim. -/
def safe_substitute : List TmplPart → (String → Option PyVal) → String
  | [], _ => ""
  | .lit s :: t, p => s ++ safe_substitute t p
  | .var n :: t, p =>
      (match p n with
       | some v => v.str
       | none => "$\x7b" ++ n ++ "\x7d") ++ safe_substitute t p

/-- `SLIReporter.__adjust_duration`.  `query_time or datetime.now(timezone.utc)`
is `query_time.getD now`; `timedelta.days` is floor division by one day. -/
def adjust_duration (duration : Int) (query_time : Option Int) (now : Int)
    (creation_timestamp : Int) : Option Int :=
  let effective_now := query_time.getD now
  let duration_start := effective_now - duration * usPerDay
  if duration_start < creation_timestamp then
    some ((effective_now - creation_timestamp).fdiv usPerDay)
  else
    none

/-- `SLIReporter.get_clusters`: keep clusters with a truthy (non-empty)
`external_id`, and — when a query time is given — created strictly before it.
The directory response (`uhc.search_clusters`) is passed in as `cluster_list`. -/
def get_clusters (cluster_list : List Cluster) (query_time : Option Int) : List Cluster :=
  match query_time with
  | some t =>
      cluster_list.filter
        (fun x => decide (x.external_id ≠ "") && decide (x.creation_timestamp < t))
  | none => cluster_list.filter (fun x => decide (x.external_id ≠ ""))

/-- `"_id='...'".format(cluster.external_id)`: the per-cluster selector. -/
def selectorOf (c : Cluster) : String :=
  "_id=\x27" ++ c.external_id ++ "\x27"

/-- The dict `query_params` right after the `**`-merge (lines 168-174): global
vars (when the config has them; the `KeyError` is caught), then rule items,
then the computed selector, later entries overriding earlier ones. -/
def params0 (cfg : Config) (c : Cluster) (r : Rule) : String → Option PyVal :=
  match cfg.global_vars with
  | some gv => listToDict (gv ++ ruleItems r ++ [("sel", PyVal.s (selectorOf c))])
  | none => listToDict (ruleItems r ++ [("sel", PyVal.s (selectorOf c))])

/-- `query_params` after the cluster-level duration override
(`if new_cluster_duration: query_params['duration'] = new_cluster_duration`;
Python truthiness: `0` and `None` are falsy). -/
def params1 (cfg : Config) (c : Cluster) (ncd : Option Int) (r : Rule) : String → Option PyVal :=
  match ncd with
  | some d => if d ≠ 0 then dset (params0 cfg c r) "duration" (.i d) else params0 cfg c r
  | none => params0 cfg c r

/-- `query_params` after the rule-level re-adjustment (lines 182-192):
if duration is present, `int()` it, run `__adjust_duration` again, and
overwrite on a truthy result. -/
def buildParams (cfg : Config) (c : Cluster) (ncd : Option Int) (qt : Option Int)
    (now : Int) (adjust : Bool) (r : Rule) : Except String (String → Option PyVal) :=
  let p1 := params1 cfg c ncd r
  match adjust, p1 "duration" with
  | true, some v =>
      match pyToInt v with
      | .error e => .error e
      | .ok d =>
          match adjust_duration d qt now c.creation_timestamp with
          | some nrd => .ok (if nrd ≠ 0 then dset p1 "duration" (.i nrd) else p1)
          | none => .ok p1
  | _, _ => .ok p1

/-- The concrete PromQL query for one (cluster, rule) pair:
`Template(rule["query"]).substitute(**query_params)` (line 195, outside the
`try`, so a failure here is an uncaught exception). -/
def buildQuery (cfg : Config) (c : Cluster) (ncd : Option Int) (qt : Option Int)
    (now : Int) (adjust : Bool) (r : Rule) : Except String String :=
  match buildParams cfg c ncd qt now adjust r with
  | .ok p => substitute r.query p
  | .error e => .error e

/-- One cell of the raw report: the dict
`raw_report[cluster.name][rule['name']]`.  The outer `Option` on each field
records whether the key is present at all. -/
structure Cell where
  goal? : Option Rat
  sli? : Option (Option Rat)
deriving DecidableEq

abbrev Row := List (String × Cell)
abbrev RawReport := List (String × Row)

/-- Python dict lookup `d[k]` on an association list (keys are unique because
the list is only built through `dictSet`). -/
def dictGet {α : Type} : List (String × α) → String → Option α
  | [], _ => none
  | p :: t, k => if p.1 = k then some p.2 else dictGet t k

/-- Python dict update `d[k] = v` on an association list: replace in place if
the key exists (Python keeps the original insertion position), else append. -/
def dictSet {α : Type} (d : List (String × α)) (k : String) (v : α) : List (String × α) :=
  if d.any (fun p => p.1 = k) then
    d.map (fun p => if p.1 = k then (k, v) else p)
  else
    d ++ [(k, v)]

/-- The cell written for one (cluster, rule) pair: `goal` is
`float(rule['goal']) * 100`; `sli` is the query result times 100, or Python
`None` when anything inside the `try` failed. -/
def mkCell (r : Rule) (res : Except String Rat) : Cell :=
  { goal? := some (r.goal * 100),
    sli? := some (match res with
                  | .ok v => some (v * 100)
                  | .error _ => none) }

/-- `new_cluster_duration` (lines 151-155): only computed when
`adjust_duration` is requested; looking up `self.config['global_vars']` raises
`KeyError` when the key is missing (uncaught at this point). -/
def clusterNcd (cfg : Config) (qt : Option Int) (now : Int) (adjust : Bool)
    (c : Cluster) : Except String (Option Int) :=
  if adjust then
    match cfg.global_vars with
    | none => .error "KeyError: global_vars"
    | some gv =>
        match listToDict gv "duration" with
        | none => .ok none
        | some v =>
            match pyToInt v with
            | .ok d => .ok (adjust_duration d qt now c.creation_timestamp)
            | .error e => .error e
  else
    .ok none

/-- `cluster = cluster._replace(name=cluster.name + '*')`, guarded by Python
truthiness of `new_cluster_duration`. -/
def starName (c : Cluster) (ncd : Option Int) : String :=
  match ncd with
  | some d => if d ≠ 0 then c.name ++ "*" else c.name
  | none => c.name

/-- The key under which a cluster's row ends up in the raw report. -/
def displayName (cfg : Config) (qt : Option Int) (now : Int) (adjust : Bool)
    (c : Cluster) : String :=
  match clusterNcd cfg qt now adjust c with
  | .ok ncd => starName c ncd
  | .error _ => c.name

/-- The inner rule loop of `generate_report`: build the query, run it through
the metrics oracle, store the cell.  Only the oracle call (and result
extraction) is inside the `try`; `buildQuery` failures propagate. -/
def reportCell (oracle : String → Option Int → Except String Rat) (cfg : Config)
    (qt : Option Int) (now : Int) (adjust : Bool) (c : Cluster) (ncd : Option Int)
    (r : Rule) : Except String Cell :=
  match buildQuery cfg c ncd qt now adjust r with
  | .ok q => .ok (mkCell r (oracle q qt))
  | .error e => .error e

/-- `for rule in self.config["rules"]`, accumulating the row dict. -/
def reportRow (oracle : String → Option Int → Except String Rat) (cfg : Config)
    (qt : Option Int) (now : Int) (adjust : Bool) (c : Cluster) (ncd : Option Int) :
    List Rule → Row → Except String Row
  | [], row => .ok row
  | r :: rest, row =>
      match reportCell oracle cfg qt now adjust c ncd r with
      | .ok cell => reportRow oracle cfg qt now adjust c ncd rest (dictSet row r.name cell)
      | .error e => .error e

/-- `for cluster in clusters`, accumulating the raw report dict. -/
def reportClusters (oracle : String → Option Int → Except String Rat) (cfg : Config)
    (qt : Option Int) (now : Int) (adjust : Bool) :
    List Cluster → RawReport → Except String RawReport
  | [], acc => .ok acc
  | c :: rest, acc =>
      match clusterNcd cfg qt now adjust c with
      | .error e => .error e
      | .ok ncd =>
          match reportRow oracle cfg qt now adjust c ncd cfg.rules [] with
          | .ok row =>
              reportClusters oracle cfg qt now adjust rest (dictSet acc (starName c ncd) row)
          | .error e => .error e

/-- `SLIReporter.generate_report`.  `qt` is the optional historical query time,
`now` stands for `datetime.now(timezone.utc)`, `adjust` is the
`adjust_duration` flag. -/
def generate_report (cfg : Config) (oracle : String → Option Int → Except String Rat)
    (clusters : List Cluster) (qt : Option Int) (now : Int) (adjust : Bool) :
    Except String RawReport :=
  reportClusters oracle cfg qt now adjust clusters []

/-- `SLIReporter.caution_threshold = 0.01`. -/
def caution_threshold : Rat := 1 / 100

/-- Round a rational to the nearest integer, ties to even — the rounding used
by Python's fixed-point float formatting. -/
def roundHalfEven (q : Rat) : Int :=
  let f := q.floor
  let frac := q - (f : Rat)
  if frac < 1 / 2 then f
  else if 1 / 2 < frac then f + 1
  else if f % 2 = 0 then f else f + 1

/-- Zero-pad a fractional part to three digits. -/
def pad3 (n : Nat) : String :=
  (if n < 10 then "00" else if n < 100 then "0" else "") ++ toString n

/-- Python `'⟨:0.3f⟩'.format(value)`: the value rendered with exactly three
decimal places, rounding half to even. -/
def format3 (q : Rat) : String :=
  let scaled := roundHalfEven (q * 1000)
  let sign := if scaled < 0 then "-" else ""
  let n := scaled.natAbs
  sign ++ toString (n / 1000) ++ "." ++ pad3 (n % 1000)

/-- The CSS class picked by the `color` branch of `__format_sli`:
`value - goal < 0` is danger, below `caution_threshold` is caution,
else success. -/
def sli_class (v g : Rat) : String :=
  if v - g < 0 then "danger"
  else if v - g < caution_threshold then "caution"
  else "success"

/-- The colored HTML template of `__format_sli`, already applied to the
rounded value: `<span class='CLASS'>VALUE&#37;</span>`. -/
def htmlColored (cls s : String) : String :=
  "<span class=\x27" ++ cls ++ "\x27>" ++ s ++ "&#37;</span>"

/-- The ANSI color code of the shell template for each class. -/
def shellColorCode (cls : String) : String :=
  if cls = "danger" then "\x1b[1;31m"
  else if cls = "caution" then "\x1b[1;33m"
  else "\x1b[0;32m"

/-- The colored shell template of `__format_sli`, applied to the rounded
value. -/
def shellColored (cls s : String) : String :=
  shellColorCode cls ++ s ++ "%\x1b[0m"

/-- Python `str()` of the value at the end of `__format_sli`: the `None`
branch has replaced the value by the int `0` by then.  Python float repr is
approximated by `Rat` repr; no theorem in this file depends on that case. -/
def pyStr : Option Rat → String
  | none => "0"
  | some v => toString v

/-- `SLIReporter.__format_sli`.  `goal` is `None` only at call sites that also
pass `color=False` (the goal columns), where the subtraction is never
evaluated; the `getD 0` dummy is unreachable with the source's call pattern. -/
def format_sli (value : Option Rat) (goal : Option Rat) (fmt : Option String)
    (color : Bool) : String :=
  let v : Rat := match value with
                 | none => 0
                 | some x => x
  let tmpl : (String → String) × (String → String) :=
    match value with
    | none => (fun _ => "--", fun _ => "--")
    | some x =>
        if color then
          let cls := sli_class x (goal.getD 0)
          (htmlColored cls, shellColored cls)
        else
          (fun s => s ++ "&#37;", fun s => s ++ "%")
  let rounded_sli := (format3 v).take 6
  match fmt with
  | some f => if f = "html" then tmpl.1 rounded_sli else tmpl.2 rounded_sli
  | none => pyStr value

/-- One CSV field as written by `csv.writer` (QUOTE_MINIMAL). -/
def csvField (s : String) : String :=
  if s.any (fun ch => ch = ',' || ch = '"' || ch = '\n' || ch = '\r') then
    "\"" ++ (s.replace "\"" "\"\"") ++ "\""
  else s

/-- One CSV row as written by `csv.writer` (default `\r\n` terminator). -/
def csvRow (r : List String) : String :=
  String.intercalate "," (r.map csvField) ++ "\r\n"

/-- The body of the row loop of `format_report`: for each rule cell, the
formatted goal then the formatted sli.  `scores['sli']` / `scores['goal']`
raise `KeyError` when the key is absent (embedded as `.error`). -/
def buildRowCells (fmt : String) (color : Bool) : Row → Except String (List String)
  | [] => .ok []
  | (_, scores) :: rest =>
      match scores.sli?, scores.goal? with
      | some sli, some goal =>
          let sli_f := format_sli sli (some goal)
            (if fmt = "csv" then none else some fmt) color
          let goal_f := format_sli (some goal) none
            (if fmt = "csv" then none else some fmt) false
          match buildRowCells fmt color rest with
          | .ok tail => .ok (goal_f :: sli_f :: tail)
          | .error e => .error e
      | _, _ => .error "KeyError"

/-- The table built by `format_report`: one row per cluster, the display name
first. -/
def buildTable (fmt : String) (color : Bool) : RawReport → Except String (List (List String))
  | [] => .ok []
  | (cname, row) :: rest =>
      match buildRowCells fmt color row with
      | .ok cells =>
          match buildTable fmt color rest with
          | .ok tail => .ok ((cname :: cells) :: tail)
          | .error e => .error e
      | .error e => .error e

/-- `SLIReporter.format_report`.  `tab` is the external `tabulate`
collaborator; `css` and `htmlShell` are the object's CSS block and HTML
document template; `title`/`footer` substitute as Python `str(None)` when
absent. -/
def format_report (tab : List (List String) → List String → String → String)
    (css : String) (htmlShell : List TmplPart) (headers : List String)
    (raw_report : RawReport) (fmt : String) (color : Bool)
    (title footer : Option String) : Except String String :=
  match buildTable fmt color raw_report with
  | .error e => .error e
  | .ok table =>
      if fmt = "csv" then
        .ok (String.join ((headers :: table).map csvRow))
      else if fmt = "html" then
        .ok (safe_substitute htmlShell (listToDict
          [("style", PyVal.s css),
           ("table", PyVal.s (tab table headers fmt)),
           ("title", PyVal.s ((title).getD "None")),
           ("footer", PyVal.s ((footer).getD "None"))]))
      else
        .ok (tab table headers fmt)

/-- `SLIReporter.generate_headers` without tooltips: one "Goal" and one
"Perf." column per rule, after a "Cluster" column. -/
def generate_headers (cfg : Config) : List String :=
  "Cluster" :: (cfg.rules.map (fun r => [r.name ++ " Goal", r.name ++ " Perf."])).flatten

/-- The spec-side description of the effective variable set (claim C5): the
`duration` override, over the selector, over the rule items, over the global
vars — later sources win on key collision. -/
def overlayDuration (D : Option Int) : String → Option PyVal :=
  fun k => if k = "duration" then D.map PyVal.i else none

/-- The selector source of the variable merge, as a one-key dict. -/
def selVar (c : Cluster) : String → Option PyVal :=
  fun k => if "sel" = k then some (PyVal.s (selectorOf c)) else none

/-- The rule-local variable source of the merge. -/
def ruleVarsD (r : Rule) : String → Option PyVal :=
  listToDict (ruleItems r)

/-- The global variable source of the merge (empty when the config has no
`global_vars` key). -/
def globalVarsD (cfg : Config) : String → Option PyVal :=
  match cfg.global_vars with
  | some gv => listToDict gv
  | none => fun _ => none

/-- Right-biased merge of the four variable sources of claim C5. -/
def mergeSpec (D : Option Int) (cfg : Config) (c : Cluster) (r : Rule) :
    String → Option PyVal :=
  fun k => (overlayDuration D k).orElse
    (fun _ => (selVar c k).orElse
      (fun _ => (ruleVarsD r k).orElse
        (fun _ => globalVarsD cfg k)))

/-- Python truthiness of an `int`-or-`None` value, as used by the
`if new_cluster_duration:` / `if new_rule_duration:` guards. -/
def pyTruthyInt : Option Int → Option Int
  | some d => if d ≠ 0 then some d else none
  | none => none

/-- The cluster-specific duration override in force after both adjustment
passes of `generate_report`: the re-adjusted rule-level duration when that is
truthy, else the truthy cluster-level one, else nothing. -/
def durationCap (cfg : Config) (c : Cluster) (ncd : Option Int) (qt : Option Int)
    (now : Int) (adjust : Bool) (r : Rule) : Except String (Option Int) :=
  let p1 := params1 cfg c ncd r
  match adjust, p1 "duration" with
  | true, some v =>
      match pyToInt v with
      | .error e => .error e
      | .ok d =>
          match adjust_duration d qt now c.creation_timestamp with
          | some nrd => .ok (if nrd ≠ 0 then some nrd else pyTruthyInt ncd)
          | none => .ok (pyTruthyInt ncd)
  | _, _ => .ok (pyTruthyInt ncd)

/-! Fixtures: minimal configs, rules and clusters used to instantiate the
claim theorems on concrete inputs. -/

/-- A one-rule config whose query needs no substitution. -/
def wrule : Rule := { name := "r", query := [TmplPart.lit "q"], goal := mkRat 1 2, extra := [] }

/-- A config holding only `wrule` and an empty global variable set. -/
def wcfg : Config := { global_vars := some [], rules := [wrule] }

/-- A single test cluster. -/
def wcluster : Cluster := { id := "i", name := "c", external_id := "e", creation_timestamp := 0 }

/-- A rule whose query template holds a placeholder bound by no variable. -/
def brule : Rule :=
  { name := "b", query := [TmplPart.var "undefinedvar"], goal := mkRat 1 2, extra := [] }

/-- A config holding only the unbound-placeholder rule. -/
def bcfg : Config := { global_vars := some [], rules := [brule] }

/-- A config whose well-formed rule precedes the unbound-placeholder rule, so
the substitution failure strikes at the second (cluster, rule) pair. -/
def b2cfg : Config := { global_vars := some [], rules := [wrule, brule] }

/-- A raw-report cell with a failed (None) sli. -/
def wcell : Cell := { goal? := some (mkRat 50 1), sli? := some none }

/-- A one-cluster, one-rule raw report with a failed sli. -/
def wraw : RawReport := [("c", [("r", wcell)])]

/-- A stub for the external `tabulate` collaborator that records the
table-format string it was asked for. -/
def wtab : List (List String) → List String → String → String :=
  fun _ _ f => "TABLE:" ++ f

/-! Theorems. -/

/-- C1: `__adjust_duration` returns the floor of whole days between the
reference time and the creation time exactly when the window start
`T - d days` lies strictly before the creation time, and `None` otherwise;
in particular `adjust(28, T, T-3d) = 3`, `adjust(28, T, T-40d) = none`, and
on the boundary `adjust(28, T, T-28d) = none`. -/
theorem adjust_duration_matches_claim (d T C now : Int) :
    (adjust_duration d (some T) now C =
      if T - d * usPerDay < C then some ((T - C).fdiv usPerDay) else none)
    ∧ adjust_duration 28 (some T) now (T - 3 * usPerDay) = some 3
    ∧ adjust_duration 28 (some T) now (T - 40 * usPerDay) = none
    ∧ adjust_duration 28 (some T) now (T - 28 * usPerDay) = none := by
  refine ⟨rfl, ?_, ?_, ?_⟩
  · simp only [adjust_duration, Option.getD_some, usPerDay]
    rw [if_pos (by omega)]
    rw [show T - (T - 3 * 86400000000) = 259200000000 by omega]
    decide
  · simp only [adjust_duration, Option.getD_some, usPerDay]
    rw [if_neg (by omega)]
  · simp only [adjust_duration, Option.getD_some, usPerDay]
    rw [if_neg (by omega)]

/-- C10: `get_clusters` keeps exactly the clusters of the directory response
with a non-empty `external_id`, and — when a query time is supplied — with a
creation timestamp strictly earlier than it. -/
theorem get_clusters_filter_spec (l : List Cluster) (t : Int) (c : Cluster) :
    (c ∈ get_clusters l (some t) ↔
      c ∈ l ∧ c.external_id ≠ "" ∧ c.creation_timestamp < t)
    ∧ (c ∈ get_clusters l none ↔ c ∈ l ∧ c.external_id ≠ "") := by
  constructor
  · simp [get_clusters, List.mem_filter, and_assoc]
  · simp [get_clusters, List.mem_filter]

/-- C6: with coloring enabled the formatter classifies a numeric value as
danger exactly when `value - goal < 0`, caution exactly when
`0 ≤ value - goal < caution_threshold`, success otherwise, with the threshold
the fixed constant `0.01`; the HTML rendering wraps the rounded value in the
class picked this way, and `(95, 96)` is danger, `(96.005, 96)` is caution,
`(97, 96)` is success. -/
theorem sli_class_thresholds (v g : Rat) :
    (sli_class v g = "danger" ↔ v - g < 0)
    ∧ (sli_class v g = "caution" ↔ 0 ≤ v - g ∧ v - g < caution_threshold)
    ∧ (sli_class v g = "success" ↔ caution_threshold ≤ v - g)
    ∧ caution_threshold = 1 / 100
    ∧ format_sli (some v) (some g) (some "html") true
        = htmlColored (sli_class v g) ((format3 v).take 6)
    ∧ sli_class 95 96 = "danger"
    ∧ sli_class (19201/200) 96 = "caution"
    ∧ sli_class 97 96 = "success" := by
  refine ⟨?_, ?_, ?_, rfl, rfl, ?_, ?_, ?_⟩
  · unfold sli_class
    split_ifs with h1 h2
    · exact iff_of_true rfl h1
    · exact iff_of_false (by decide) h1
    · exact iff_of_false (by decide) h1
  · unfold sli_class
    split_ifs with h1 h2
    · exact iff_of_false (by decide) (fun h => absurd h1 (not_lt.mpr h.1))
    · exact iff_of_true rfl ⟨not_lt.mp h1, h2⟩
    · exact iff_of_false (by decide) (fun h => h2 h.2)
  · unfold sli_class
    split_ifs with h1 h2
    · exact iff_of_false (by decide)
        (fun h => absurd h1 (not_lt.mpr (le_trans (by norm_num [caution_threshold]) h)))
    · exact iff_of_false (by decide) (fun h => absurd h2 (not_lt.mpr h))
    · exact iff_of_true rfl (not_lt.mp h2)
  · with_unfolding_all decide
  · with_unfolding_all decide
  · with_unfolding_all decide

/-- C7 counterexample: the numeric rendering of `99.98765` is the rounded
`"99.988"`, not the truncated `"99.987"` claimed. -/
theorem format_sli_rounds_not_truncates :
    format_sli (some (mkRat 9998765 100000)) (some 0) (some "plain") false = "99.988%"
    ∧ format_sli (some (mkRat 9998765 100000)) (some 0) (some "plain") false ≠ "99.987%" := by
  with_unfolding_all decide

/-- C7 (amended): a numeric sli value renders, identically in every styled
format, as the value formatted to three decimal places with rounding, the
resulting string truncated to at most six characters before the unit suffix;
`99.98765` renders as `"99.988"`. -/
theorem format_sli_numeric_rendering (v : Rat) (g : Option Rat) :
    format_sli (some v) g (some "plain") false = (format3 v).take 6 ++ "%"
    ∧ format_sli (some v) g (some "simple") false = (format3 v).take 6 ++ "%"
    ∧ format_sli (some v) g (some "grid") false = (format3 v).take 6 ++ "%"
    ∧ format_sli (some v) g (some "fancy_grid") false = (format3 v).take 6 ++ "%"
    ∧ format_sli (some v) g (some "html") false = (format3 v).take 6 ++ "&#37;"
    ∧ (format3 (mkRat 9998765 100000)).take 6 = "99.988" := by
  refine ⟨rfl, rfl, rfl, rfl, rfl, ?_⟩
  with_unfolding_all decide

/-- C8 counterexample: in the csv path the formatter is called with no style,
and a `None` sli then renders as `str(0) = "0"`, not as `"--"`. -/
theorem format_sli_none_csv_renders_zero :
    format_sli none (some 96) none false = "0"
    ∧ ("0" : String) ≠ "--" := by
  exact ⟨rfl, by decide⟩

/-- C8 (amended): a `None` sli renders as the unstyled literal `"--"` under
every styled format (plain, simple, grid, fancy_grid, html) regardless of the
color setting, but in the csv path (where `format_report` passes no style) it
renders as `"0"`. -/
theorem format_sli_none_rendering (g : Option Rat) (color : Bool) :
    format_sli none g (some "plain") color = "--"
    ∧ format_sli none g (some "simple") color = "--"
    ∧ format_sli none g (some "grid") color = "--"
    ∧ format_sli none g (some "fancy_grid") color = "--"
    ∧ format_sli none g (some "html") color = "--"
    ∧ format_sli none g (some "csv") color = "--"
    ∧ format_sli none g none color = "0" :=
  ⟨rfl, rfl, rfl, rfl, rfl, rfl, rfl⟩

/-- C9 counterexample: `format_report` does not reject an unrecognized format;
with the table collaborator stubbed, the format string `"nonsense"` is simply
forwarded to it and its output returned. -/
theorem format_report_unknown_format_not_rejected :
    format_report wtab "" [] ["Cluster"] wraw "nonsense" false none none
      = .ok "TABLE:nonsense" := by
  with_unfolding_all rfl

/-- C9 (amended): `format_report` performs no format validation: any format
other than `"csv"` and `"html"` is forwarded verbatim to the external
`tabulate` collaborator as the table format, and its output is returned —
there is no rejection, and `format_report` runs on an already generated
report, after all metrics queries. -/
theorem format_report_forwards_unknown_format
    (tab : List (List String) → List String → String → String)
    (css : String) (htmlShell : List TmplPart) (headers : List String)
    (raw : RawReport) (fmt : String) (color : Bool) (title footer : Option String)
    (table : List (List String))
    (h1 : fmt ≠ "csv") (h2 : fmt ≠ "html")
    (ht : buildTable fmt color raw = .ok table) :
    format_report tab css htmlShell headers raw fmt color title footer
      = .ok (tab table headers fmt) := by
  simp only [format_report, ht]
  rw [if_neg h1, if_neg h2]

/-- C9 witness: the amended theorem applied at a concrete unknown format. -/
theorem format_report_forwards_unknown_format_witness :
    format_report wtab "" [] ["Cluster"] wraw "bogus" false none none
      = .ok (wtab [["c", "50.000%", "--"]] ["Cluster"] "bogus") :=
  format_report_forwards_unknown_format wtab "" [] ["Cluster"] wraw "bogus" false
    none none [["c", "50.000%", "--"]] (by decide) (by decide)
    (by with_unfolding_all rfl)

/-! Association-list dictionary lemmas. -/

theorem dictGet_append {α : Type} (d l : List (String × α)) (k : String) :
    dictGet (d ++ l) k = (dictGet d k).orElse (fun _ => dictGet l k) := by
  induction d with
  | nil => simp [dictGet, Option.orElse]
  | cons p t ih =>
      by_cases h : p.1 = k <;> simp [dictGet, h, ih, Option.orElse]

theorem dictGet_eq_none_of_not_any {α : Type} (d : List (String × α)) (k : String)
    (h : d.any (fun p => p.1 = k) = false) : dictGet d k = none := by
  induction d with
  | nil => rfl
  | cons p t ih =>
      simp only [List.any_cons, Bool.or_eq_false_iff, decide_eq_false_iff_not] at h
      simp [dictGet, h.1, ih h.2]

theorem dictGet_map_replace {α : Type} (d : List (String × α)) (k : String) (v : α)
    (h : d.any (fun p => p.1 = k) = true) :
    dictGet (d.map (fun p => if p.1 = k then (k, v) else p)) k = some v := by
  induction d with
  | nil => simp at h
  | cons p t ih =>
      by_cases hp : p.1 = k
      · simp [dictGet, hp]
      · simp only [List.any_cons, Bool.or_eq_true, decide_eq_true_eq] at h
        have ht : t.any (fun p => p.1 = k) = true := by
          rcases h with h | h
          · exact absurd h hp
          · exact h
        simp [dictGet, hp, ih ht]

theorem dictGet_map_replace_ne {α : Type} (d : List (String × α)) (k k' : String) (v : α)
    (hne : k' ≠ k) :
    dictGet (d.map (fun p => if p.1 = k then (k, v) else p)) k' = dictGet d k' := by
  induction d with
  | nil => rfl
  | cons p t ih =>
      by_cases hp : p.1 = k
      · have hfp : (if p.1 = k then (k, v) else p) = (k, v) := if_pos hp
        rw [List.map_cons, hfp]
        simp only [dictGet]
        rw [if_neg (show ¬ (k, v).1 = k' from fun h => hne h.symm),
            if_neg (show ¬ p.1 = k' from by rw [hp]; exact fun h => hne h.symm)]
        exact ih
      · have hfp : (if p.1 = k then (k, v) else p) = p := if_neg hp
        rw [List.map_cons, hfp]
        simp only [dictGet]
        rw [ih]

theorem dictGet_dictSet_self {α : Type} (d : List (String × α)) (k : String) (v : α) :
    dictGet (dictSet d k v) k = some v := by
  unfold dictSet
  split_ifs with h
  · exact dictGet_map_replace d k v h
  · rw [dictGet_append, dictGet_eq_none_of_not_any d k (Bool.eq_false_iff.mpr h)]
    show dictGet [(k, v)] k = some v
    simp [dictGet]

theorem dictGet_dictSet_ne {α : Type} (d : List (String × α)) (k k' : String) (v : α)
    (hne : k' ≠ k) :
    dictGet (dictSet d k v) k' = dictGet d k' := by
  unfold dictSet
  split_ifs with h
  · exact dictGet_map_replace_ne d k k' v hne
  · rw [dictGet_append]
    cases hd : dictGet d k' with
    | none =>
        show dictGet [(k, v)] k' = none
        simp only [dictGet]
        rw [if_neg (show ¬ (k, v).1 = k' from fun h => hne h.symm)]
    | some v' => rfl

/-! Structure lemmas about `generate_report`'s loops. -/

theorem reportCell_shape (o : String → Option Int → Except String Rat) (cfg : Config)
    (qt : Option Int) (now : Int) (adjust : Bool) (c : Cluster) (ncd : Option Int)
    (r : Rule) (cell : Cell)
    (h : reportCell o cfg qt now adjust c ncd r = .ok cell) :
    ∃ q, buildQuery cfg c ncd qt now adjust r = .ok q ∧ cell = mkCell r (o q qt) := by
  cases hq : buildQuery cfg c ncd qt now adjust r with
  | error e =>
      simp only [reportCell, hq] at h
      exact Except.noConfusion h
  | ok q =>
      simp only [reportCell, hq, Except.ok.injEq] at h
      exact ⟨q, rfl, h.symm⟩

theorem reportRow_preserves (o : String → Option Int → Except String Rat) (cfg : Config)
    (qt : Option Int) (now : Int) (adjust : Bool) (c : Cluster) (ncd : Option Int) :
    ∀ (rules : List Rule) (row row' : Row),
      reportRow o cfg qt now adjust c ncd rules row = .ok row' →
      ∀ k, (∀ r ∈ rules, r.name ≠ k) → dictGet row' k = dictGet row k := by
  intro rules
  induction rules with
  | nil =>
      intro row row' h k _
      cases h
      rfl
  | cons r t ih =>
      intro row row' h k hk
      cases hc : reportCell o cfg qt now adjust c ncd r with
      | error e =>
          simp only [reportRow, hc] at h
          exact Except.noConfusion h
      | ok cell =>
          simp only [reportRow, hc] at h
          have hrec := ih (dictSet row r.name cell) row' h k
            (fun r' hr' => hk r' (List.mem_cons_of_mem _ hr'))
          rw [hrec, dictGet_dictSet_ne row r.name k cell
            (Ne.symm (hk r (List.mem_cons_self r t)))]

theorem reportRow_lookup (o : String → Option Int → Except String Rat) (cfg : Config)
    (qt : Option Int) (now : Int) (adjust : Bool) (c : Cluster) (ncd : Option Int) :
    ∀ (rules : List Rule) (row row' : Row),
      (rules.map Rule.name).Nodup →
      reportRow o cfg qt now adjust c ncd rules row = .ok row' →
      ∀ r ∈ rules, ∃ q, buildQuery cfg c ncd qt now adjust r = .ok q ∧
        dictGet row' r.name = some (mkCell r (o q qt)) := by
  intro rules
  induction rules with
  | nil =>
      intro row row' _ _ r hr
      exact absurd hr (List.not_mem_nil r)
  | cons r0 t ih =>
      intro row row' hnd h r hr
      have hnd' : r0.name ∉ t.map Rule.name ∧ (t.map Rule.name).Nodup := by
        rw [List.map_cons] at hnd
        exact List.nodup_cons.mp hnd
      cases hc : reportCell o cfg qt now adjust c ncd r0 with
      | error e =>
          simp only [reportRow, hc] at h
          exact Except.noConfusion h
      | ok cell =>
          simp only [reportRow, hc] at h
          rcases List.mem_cons.mp hr with rfl | hrt
          · obtain ⟨q, hq, rfl⟩ := reportCell_shape o cfg qt now adjust c ncd r cell hc
            refine ⟨q, hq, ?_⟩
            have hpres := reportRow_preserves o cfg qt now adjust c ncd t _ row' h r.name
              (fun r' hr' heq => hnd'.1 (heq ▸ List.mem_map_of_mem Rule.name hr'))
            rw [hpres, dictGet_dictSet_self]
          · exact ih _ row' hnd'.2 h r hrt

theorem reportRow_ok_swap (o1 o2 : String → Option Int → Except String Rat) (cfg : Config)
    (qt : Option Int) (now : Int) (adjust : Bool) (c : Cluster) (ncd : Option Int) :
    ∀ (rules : List Rule) (row1 row2 out1 : Row),
      reportRow o1 cfg qt now adjust c ncd rules row1 = .ok out1 →
      ∃ out2, reportRow o2 cfg qt now adjust c ncd rules row2 = .ok out2 := by
  intro rules
  induction rules with
  | nil =>
      intro _ row2 _ _
      exact ⟨row2, rfl⟩
  | cons r t ih =>
      intro row1 row2 out1 h
      cases hc : reportCell o1 cfg qt now adjust c ncd r with
      | error e =>
          simp only [reportRow, hc] at h
          exact Except.noConfusion h
      | ok cell =>
          simp only [reportRow, hc] at h
          obtain ⟨q, hq, -⟩ := reportCell_shape o1 cfg qt now adjust c ncd r cell hc
          have hc2 : reportCell o2 cfg qt now adjust c ncd r = .ok (mkCell r (o2 q qt)) := by
            simp only [reportCell, hq]
          obtain ⟨out2, hout⟩ :=
            ih (dictSet row1 r.name cell) (dictSet row2 r.name (mkCell r (o2 q qt))) out1 h
          refine ⟨out2, ?_⟩
          simp only [reportRow, hc2]
          exact hout

theorem reportClusters_preserves (o : String → Option Int → Except String Rat) (cfg : Config)
    (qt : Option Int) (now : Int) (adjust : Bool) :
    ∀ (cls : List Cluster) (acc m : RawReport),
      reportClusters o cfg qt now adjust cls acc = .ok m →
      ∀ k, (∀ c ∈ cls, displayName cfg qt now adjust c ≠ k) → dictGet m k = dictGet acc k := by
  intro cls
  induction cls with
  | nil =>
      intro acc m h k _
      cases h
      rfl
  | cons c t ih =>
      intro acc m h k hk
      cases hn : clusterNcd cfg qt now adjust c with
      | error e =>
          simp only [reportClusters, hn] at h
          exact Except.noConfusion h
      | ok ncd =>
          simp only [reportClusters, hn] at h
          cases hrow : reportRow o cfg qt now adjust c ncd cfg.rules [] with
          | error e =>
              rw [hrow] at h
              exact Except.noConfusion h
          | ok row =>
              rw [hrow] at h
              have hdn : displayName cfg qt now adjust c = starName c ncd := by
                simp [displayName, hn]
              have hrec := ih _ m h k
                (fun c' hc' => hk c' (List.mem_cons_of_mem _ hc'))
              rw [hrec, dictGet_dictSet_ne acc (starName c ncd) k row
                (by rw [← hdn]; exact Ne.symm (hk c (List.mem_cons_self c t)))]

theorem reportClusters_lookup (o : String → Option Int → Except String Rat) (cfg : Config)
    (qt : Option Int) (now : Int) (adjust : Bool) :
    ∀ (cls : List Cluster) (acc m : RawReport),
      (cls.map (displayName cfg qt now adjust)).Nodup →
      reportClusters o cfg qt now adjust cls acc = .ok m →
      ∀ c ∈ cls, ∃ ncd row, clusterNcd cfg qt now adjust c = .ok ncd ∧
        reportRow o cfg qt now adjust c ncd cfg.rules [] = .ok row ∧
        dictGet m (displayName cfg qt now adjust c) = some row := by
  intro cls
  induction cls with
  | nil =>
      intro acc m _ _ c hc
      exact absurd hc (List.not_mem_nil c)
  | cons c0 t ih =>
      intro acc m hnd h c hc
      have hnd' : displayName cfg qt now adjust c0 ∉ t.map (displayName cfg qt now adjust)
          ∧ (t.map (displayName cfg qt now adjust)).Nodup := by
        rw [List.map_cons] at hnd
        exact List.nodup_cons.mp hnd
      cases hn : clusterNcd cfg qt now adjust c0 with
      | error e =>
          simp only [reportClusters, hn] at h
          exact Except.noConfusion h
      | ok ncd =>
          simp only [reportClusters, hn] at h
          cases hrow : reportRow o cfg qt now adjust c0 ncd cfg.rules [] with
          | error e =>
              rw [hrow] at h
              exact Except.noConfusion h
          | ok row =>
              rw [hrow] at h
              have hdn : displayName cfg qt now adjust c0 = starName c0 ncd := by
                simp [displayName, hn]
              rcases List.mem_cons.mp hc with rfl | hct
              · refine ⟨ncd, row, hn, hrow, ?_⟩
                have hpres := reportClusters_preserves o cfg qt now adjust t _ m h
                  (displayName cfg qt now adjust c) (fun c' hc' heq =>
                    hnd'.1 (heq ▸ List.mem_map_of_mem (displayName cfg qt now adjust) hc'))
                rw [hpres, hdn, dictGet_dictSet_self]
              · exact ih _ m hnd'.2 h c hct

theorem reportClusters_ok_swap (o1 o2 : String → Option Int → Except String Rat) (cfg : Config)
    (qt : Option Int) (now : Int) (adjust : Bool) :
    ∀ (cls : List Cluster) (acc1 acc2 m1 : RawReport),
      reportClusters o1 cfg qt now adjust cls acc1 = .ok m1 →
      ∃ m2, reportClusters o2 cfg qt now adjust cls acc2 = .ok m2 := by
  intro cls
  induction cls with
  | nil =>
      intro _ acc2 _ _
      exact ⟨acc2, rfl⟩
  | cons c t ih =>
      intro acc1 acc2 m1 h
      cases hn : clusterNcd cfg qt now adjust c with
      | error e =>
          simp only [reportClusters, hn] at h
          exact Except.noConfusion h
      | ok ncd =>
          simp only [reportClusters, hn] at h
          cases hrow : reportRow o1 cfg qt now adjust c ncd cfg.rules [] with
          | error e =>
              rw [hrow] at h
              exact Except.noConfusion h
          | ok row =>
              rw [hrow] at h
              obtain ⟨row2, hrow2⟩ :=
                reportRow_ok_swap o1 o2 cfg qt now adjust c ncd cfg.rules [] [] row hrow
              obtain ⟨m2, hm2⟩ :=
                ih (dictSet acc1 (starName c ncd) row) (dictSet acc2 (starName c ncd) row2) m1 h
              refine ⟨m2, ?_⟩
              simp only [reportClusters, hn, hrow2]
              exact hm2

/-- C4: whenever `generate_report` returns normally (and rule names and
cluster display names are distinct, as dict keys), every (cluster, rule) cell
of the returned report carries a `goal` key equal to the rule's goal fraction
times 100 and an `sli` key holding either a number or the explicit `None`
sentinel — neither key is absent. -/
theorem generate_report_cells_goal_and_sli_present (cfg : Config)
    (o : String → Option Int → Except String Rat) (clusters : List Cluster)
    (qt : Option Int) (now : Int) (adjust : Bool) (m : RawReport)
    (hrules : (cfg.rules.map Rule.name).Nodup)
    (hnames : (clusters.map (displayName cfg qt now adjust)).Nodup)
    (h : generate_report cfg o clusters qt now adjust = .ok m) :
    ∀ c ∈ clusters, ∀ r ∈ cfg.rules, ∃ row cell,
      dictGet m (displayName cfg qt now adjust c) = some row ∧
      dictGet row r.name = some cell ∧
      cell.goal? = some (r.goal * 100) ∧ ∃ s, cell.sli? = some s := by
  intro c hc r hr
  obtain ⟨ncd, row, -, hrow, hm⟩ :=
    reportClusters_lookup o cfg qt now adjust clusters [] m hnames h c hc
  obtain ⟨q, -, hcell⟩ :=
    reportRow_lookup o cfg qt now adjust c ncd cfg.rules [] row hrules hrow r hr
  exact ⟨row, mkCell r (o q qt), hm, hcell, rfl, _, rfl⟩

/-- C2: query failures are non-fatal and localized.  If `generate_report`
returns normally under some oracle `o0`, then under ANY oracle `o` (failing
for arbitrarily many (cluster, rule) pairs, with any exception) it still
returns normally, and every (cluster, rule) pair still has a cell, whose
`sli` mirrors that pair's oracle outcome: the value times 100 on success and
the `None` sentinel on any failure. -/
theorem generate_report_query_failure_nonfatal (cfg : Config)
    (o0 o : String → Option Int → Except String Rat) (clusters : List Cluster)
    (qt : Option Int) (now : Int) (adjust : Bool) (m0 : RawReport)
    (hrules : (cfg.rules.map Rule.name).Nodup)
    (hnames : (clusters.map (displayName cfg qt now adjust)).Nodup)
    (h0 : generate_report cfg o0 clusters qt now adjust = .ok m0) :
    ∃ m, generate_report cfg o clusters qt now adjust = .ok m ∧
      ∀ c ∈ clusters, ∃ ncd row, clusterNcd cfg qt now adjust c = .ok ncd ∧
        dictGet m (displayName cfg qt now adjust c) = some row ∧
        ∀ r ∈ cfg.rules, ∃ q, buildQuery cfg c ncd qt now adjust r = .ok q ∧
          dictGet row r.name = some
            { goal? := some (r.goal * 100),
              sli? := some (match o q qt with
                            | .ok v => some (v * 100)
                            | .error _ => none) } := by
  obtain ⟨m, hm⟩ := reportClusters_ok_swap o0 o cfg qt now adjust clusters [] [] m0 h0
  refine ⟨m, hm, ?_⟩
  intro c hc
  obtain ⟨ncd, row, hncd, hrow, hmrow⟩ :=
    reportClusters_lookup o cfg qt now adjust clusters [] m hnames hm c hc
  refine ⟨ncd, row, hncd, hmrow, ?_⟩
  intro r hr
  obtain ⟨q, hq, hcell⟩ :=
    reportRow_lookup o cfg qt now adjust c ncd cfg.rules [] row hrules hrow r hr
  exact ⟨q, hq, hcell⟩

/-- C3 counterexample: with a single cluster and a single rule whose query
template holds the unbound placeholder `undefinedvar`, `generate_report`
aborts with the substitution error instead of returning a report with a
`None` sli cell. -/
theorem generate_report_substitution_failure_aborts_concrete :
    generate_report bcfg (fun _ _ => .ok (mkRat 1 1)) [wcluster] none 0 true
      = .error "undefinedvar" := by
  with_unfolding_all rfl

theorem reportRow_all_queries_ok (o : String → Option Int → Except String Rat)
    (cfg : Config) (qt : Option Int) (now : Int) (adjust : Bool) (c : Cluster)
    (ncd : Option Int) :
    ∀ (rules : List Rule) (row row' : Row),
      reportRow o cfg qt now adjust c ncd rules row = .ok row' →
      ∀ r ∈ rules, ∃ q, buildQuery cfg c ncd qt now adjust r = .ok q := by
  intro rules
  induction rules with
  | nil =>
      intro row row' _ r hr
      exact absurd hr (List.not_mem_nil r)
  | cons r0 t ih =>
      intro row row' h r hr
      cases hc : reportCell o cfg qt now adjust c ncd r0 with
      | error e =>
          simp only [reportRow, hc] at h
          exact Except.noConfusion h
      | ok cell =>
          simp only [reportRow, hc] at h
          rcases List.mem_cons.mp hr with rfl | hrt
          · obtain ⟨q, hq, -⟩ := reportCell_shape o cfg qt now adjust c ncd r cell hc
            exact ⟨q, hq⟩
          · exact ih _ row' h r hrt

theorem reportClusters_all_queries_ok (o : String → Option Int → Except String Rat)
    (cfg : Config) (qt : Option Int) (now : Int) (adjust : Bool) :
    ∀ (cls : List Cluster) (acc m : RawReport),
      reportClusters o cfg qt now adjust cls acc = .ok m →
      ∀ c ∈ cls, ∃ ncd, clusterNcd cfg qt now adjust c = .ok ncd ∧
        ∀ r ∈ cfg.rules, ∃ q, buildQuery cfg c ncd qt now adjust r = .ok q := by
  intro cls
  induction cls with
  | nil =>
      intro acc m _ c hc
      exact absurd hc (List.not_mem_nil c)
  | cons c0 t ih =>
      intro acc m h c hc
      cases hn : clusterNcd cfg qt now adjust c0 with
      | error e =>
          simp only [reportClusters, hn] at h
          exact Except.noConfusion h
      | ok ncd =>
          simp only [reportClusters, hn] at h
          cases hrow : reportRow o cfg qt now adjust c0 ncd cfg.rules [] with
          | error e =>
              rw [hrow] at h
              exact Except.noConfusion h
          | ok row =>
              rw [hrow] at h
              rcases List.mem_cons.mp hc with rfl | hct
              · exact ⟨ncd, hn,
                  reportRow_all_queries_ok o cfg qt now adjust c ncd cfg.rules [] row hrow⟩
              · exact ih _ m h c hct

/-- C3 (amended): a template-substitution failure on a rule query is fatal to
the whole `generate_report` call: whenever any (cluster, rule) pair of the
report — at any position in either list — fails to substitute (its cluster's
duration adjustment having succeeded), `generate_report` returns a propagated
error and never a report matrix; the cell is not recorded as a `None` sli and
generation does not continue. -/
theorem generate_report_substitution_failure_fatal (cfg : Config)
    (o : String → Option Int → Except String Rat) (clusters : List Cluster)
    (qt : Option Int) (now : Int) (adjust : Bool) (c : Cluster) (r : Rule)
    (ncd : Option Int) (e : String)
    (hc : c ∈ clusters) (hr : r ∈ cfg.rules)
    (hn : clusterNcd cfg qt now adjust c = .ok ncd)
    (hq : buildQuery cfg c ncd qt now adjust r = .error e) :
    ∃ e', generate_report cfg o clusters qt now adjust = .error e' := by
  cases hg : generate_report cfg o clusters qt now adjust with
  | error e' => exact ⟨e', rfl⟩
  | ok m =>
      exfalso
      obtain ⟨ncd', hn', hall⟩ :=
        reportClusters_all_queries_ok o cfg qt now adjust clusters [] m hg c hc
      rw [hn] at hn'
      cases hn'
      obtain ⟨q, hq'⟩ := hall r hr
      rw [hq] at hq'
      exact Except.noConfusion hq'

/-- C3 witness: the amended theorem applied at a config where the failing rule
is the second one, after a rule whose query substitutes fine. -/
theorem generate_report_substitution_failure_fatal_witness :
    ∃ e', generate_report b2cfg (fun _ _ => .error "down") [wcluster] none 0 true
      = .error e' :=
  generate_report_substitution_failure_fatal b2cfg (fun _ _ => .error "down")
    [wcluster] none 0 true wcluster brule none "undefinedvar"
    (List.mem_cons_self wcluster [])
    (List.mem_cons_of_mem wrule (List.mem_cons_self brule []))
    (by with_unfolding_all rfl) (by with_unfolding_all rfl)

/-! Variable-precedence lemmas (claim C5). -/

theorem orElse_assoc {α : Type} (a : Option α) (f g : Unit → Option α) :
    (a.orElse f).orElse g = a.orElse (fun _ => (f ()).orElse g) := by
  cases a <;> rfl

theorem listToDict_append (a b : List (String × PyVal)) (k : String) :
    listToDict (a ++ b) k = (listToDict b k).orElse (fun _ => listToDict a k) := by
  induction a with
  | nil =>
      show listToDict b k = (listToDict b k).orElse (fun _ => none)
      cases listToDict b k <;> rfl
  | cons kv t ih =>
      show (listToDict (t ++ b) k).orElse _ = _
      rw [ih, orElse_assoc]
      rfl

theorem params0_eq (cfg : Config) (c : Cluster) (r : Rule) (k : String) :
    params0 cfg c r k =
      (selVar c k).orElse (fun _ => (ruleVarsD r k).orElse (fun _ => globalVarsD cfg k)) := by
  cases hg : cfg.global_vars with
  | none =>
      simp only [params0, hg, globalVarsD, ruleVarsD]
      rw [listToDict_append]
      have hsel : listToDict [("sel", PyVal.s (selectorOf c))] k = selVar c k := rfl
      rw [hsel]
      cases selVar c k with
      | some v => rfl
      | none =>
          show listToDict (ruleItems r) k = (listToDict (ruleItems r) k).orElse (fun _ => none)
          cases listToDict (ruleItems r) k <;> rfl
  | some gv =>
      simp only [params0, hg, globalVarsD, ruleVarsD]
      rw [listToDict_append, listToDict_append]
      rfl

theorem mergeSpec_none_duration (cfg : Config) (c : Cluster) (r : Rule) (k : String) :
    mergeSpec none cfg c r k =
      (selVar c k).orElse (fun _ => (ruleVarsD r k).orElse (fun _ => globalVarsD cfg k)) := by
  simp only [mergeSpec, overlayDuration]
  rw [show Option.map PyVal.i (none : Option Int) = none from rfl, ite_self]
  rfl

theorem mergeSpec_ne_duration (D : Option Int) (cfg : Config) (c : Cluster) (r : Rule)
    (k : String) (hk : k ≠ "duration") :
    mergeSpec D cfg c r k =
      (selVar c k).orElse (fun _ => (ruleVarsD r k).orElse (fun _ => globalVarsD cfg k)) := by
  simp only [mergeSpec, overlayDuration, if_neg hk]
  rfl

theorem mergeSpec_at_duration (d : Int) (cfg : Config) (c : Cluster) (r : Rule) :
    mergeSpec (some d) cfg c r "duration" = some (PyVal.i d) := by
  simp only [mergeSpec, overlayDuration, if_pos rfl]
  rfl

theorem params1_eq (cfg : Config) (c : Cluster) (ncd : Option Int) (r : Rule) (k : String) :
    params1 cfg c ncd r k = mergeSpec (pyTruthyInt ncd) cfg c r k := by
  cases ncd with
  | none =>
      show params0 cfg c r k = mergeSpec none cfg c r k
      rw [params0_eq, mergeSpec_none_duration]
  | some d =>
      by_cases hd : d ≠ 0
      · simp only [params1, pyTruthyInt, if_pos hd]
        by_cases hk : k = "duration"
        · subst hk
          rw [mergeSpec_at_duration]
          simp [dset]
        · show dset (params0 cfg c r) "duration" (PyVal.i d) k = _
          rw [mergeSpec_ne_duration _ _ _ _ _ hk]
          simp only [dset, if_neg hk]
          exact params0_eq cfg c r k
      · simp only [params1, pyTruthyInt, if_neg hd]
        show params0 cfg c r k = mergeSpec none cfg c r k
        rw [params0_eq, mergeSpec_none_duration]

/-- C5: the effective variable set substituted into a rule's query template is
the right-biased merge of — lowest to highest — the global vars, the
rule-local items, the computed selector (key `sel`), and the cluster-specific
duration override computed by the age-capping passes.  On every key collision
the later source wins. -/
theorem buildParams_precedence (cfg : Config) (c : Cluster) (ncd : Option Int)
    (qt : Option Int) (now : Int) (adjust : Bool) (r : Rule)
    (p : String → Option PyVal)
    (h : buildParams cfg c ncd qt now adjust r = .ok p) :
    ∃ D, durationCap cfg c ncd qt now adjust r = .ok D ∧
      ∀ k, p k = mergeSpec D cfg c r k := by
  cases adjust with
  | false =>
      simp only [buildParams] at h
      cases h
      exact ⟨pyTruthyInt ncd, rfl, fun k => params1_eq cfg c ncd r k⟩
  | true =>
      cases hd : params1 cfg c ncd r "duration" with
      | none =>
          simp only [buildParams, hd] at h
          cases h
          refine ⟨pyTruthyInt ncd, ?_, fun k => params1_eq cfg c ncd r k⟩
          simp only [durationCap, hd]
      | some v =>
          cases hpi : pyToInt v with
          | error e =>
              simp only [buildParams, hd, hpi] at h
              exact Except.noConfusion h
          | ok dv =>
              cases ha : adjust_duration dv qt now c.creation_timestamp with
              | none =>
                  simp only [buildParams, hd, hpi, ha] at h
                  cases h
                  refine ⟨pyTruthyInt ncd, ?_, fun k => params1_eq cfg c ncd r k⟩
                  simp only [durationCap, hd, hpi, ha]
              | some nrd =>
                  by_cases hz : nrd ≠ 0
                  · simp only [buildParams, hd, hpi, ha, if_pos hz] at h
                    cases h
                    refine ⟨some nrd, ?_, ?_⟩
                    · simp only [durationCap, hd, hpi, ha, if_pos hz]
                    · intro k
                      by_cases hk : k = "duration"
                      · subst hk
                        rw [mergeSpec_at_duration]
                        simp [dset]
                      · show dset (params1 cfg c ncd r) "duration" (PyVal.i nrd) k = _
                        rw [mergeSpec_ne_duration _ _ _ _ _ hk]
                        simp only [dset, if_neg hk]
                        rw [params1_eq cfg c ncd r k, mergeSpec_ne_duration _ _ _ _ _ hk]
                  · simp only [buildParams, hd, hpi, ha, if_neg hz] at h
                    cases h
                    refine ⟨pyTruthyInt ncd, ?_, fun k => params1_eq cfg c ncd r k⟩
                    simp only [durationCap, hd, hpi, ha, if_neg hz]

/-- C5 witness: the precedence theorem applied at the concrete fixture
config. -/
theorem buildParams_precedence_witness :
    ∃ D, durationCap wcfg wcluster none none 0 false wrule = .ok D ∧
      ∀ k, params1 wcfg wcluster none wrule k = mergeSpec D wcfg wcluster wrule k :=
  buildParams_precedence wcfg wcluster none none 0 false wrule
    (params1 wcfg wcluster none wrule) rfl

/-- C4 witness: the cell-shape theorem applied at the concrete fixture
config with a succeeding oracle. -/
theorem generate_report_cells_goal_and_sli_present_witness :
    ∃ row cell,
      dictGet [("c", [("r", ({ goal? := some (mkRat 50 1),
                               sli? := some (some (mkRat 70 1)) } : Cell))])]
        (displayName wcfg none 0 false wcluster) = some row ∧
      dictGet row wrule.name = some cell ∧
      cell.goal? = some (wrule.goal * 100) ∧ ∃ s, cell.sli? = some s :=
  generate_report_cells_goal_and_sli_present wcfg (fun _ _ => .ok (mkRat 7 10))
    [wcluster] none 0 false
    [("c", [("r", { goal? := some (mkRat 50 1), sli? := some (some (mkRat 70 1)) })])]
    (by decide) (by decide) (by with_unfolding_all rfl)
    wcluster (List.mem_cons_self wcluster []) wrule (List.mem_cons_self wrule [])

/-- C2 witness: the non-fatality theorem applied at the concrete fixture
config, with an oracle that fails every query. -/
theorem generate_report_query_failure_nonfatal_witness :
    ∃ m, generate_report wcfg (fun _ _ => .error "boom") [wcluster] none 0 false = .ok m ∧
      ∀ c ∈ [wcluster], ∃ ncd row, clusterNcd wcfg none 0 false c = .ok ncd ∧
        dictGet m (displayName wcfg none 0 false c) = some row ∧
        ∀ r ∈ wcfg.rules, ∃ q, buildQuery wcfg c ncd none 0 false r = .ok q ∧
          dictGet row r.name = some { goal? := some (r.goal * 100), sli? := some none } :=
  generate_report_query_failure_nonfatal wcfg (fun _ _ => .ok (mkRat 1 1))
    (fun _ _ => .error "boom") [wcluster] none 0 false
    [("c", [("r", { goal? := some (mkRat 50 1), sli? := some (some (mkRat 100 1)) })])]
    (by decide) (by decide) (by with_unfolding_all rfl)

end TelemeterReporter
